import Mathlib

/-!
Verification of the LearnzVerse chat backend (`app.py`).

The whole program is one Flask handler, `chat`, plus two module-level
constants (`TUTOR_PROMPTS` and `MODELS`).  We embed the handler as a pure
Lean function.  The external completion service
(`client.chat.completions.create`) is modelled by an `Oracle`: a function
from the arguments of one call to either a reply text (success) or the
diagnostic string `str(e)` of the raised exception (failure).  The handler
additionally returns the trace of external calls it issued, in order, so
that claims about which calls were made (and with which arguments) can be
stated.  Module-level state is threaded explicitly through `chatApp` so
that frame properties can be stated.
-/

set_option maxRecDepth 100000

namespace LearnzVerse

/-- A chat message in OpenAI format: an object with `role` and `content`. -/
structure Msg where
  role : String
  content : String
deriving DecidableEq, Repr

/-- One entry of the request `history`: a JSON object that may be missing
the `role` or `content` key (a missing key makes `h[k]` raise `KeyError`). -/
structure HistEntry where
  role : Option String
  content : Option String
deriving DecidableEq, Repr

/-- Inbound JSON body of `POST /chat`; `data.get(k)` yields `none` for a
missing key, and `history` defaults to the empty list. -/
structure ChatRequest where
  tutor : Option String
  message : Option String
  history : List HistEntry
deriving DecidableEq, Repr

/-- The arguments of one `client.chat.completions.create(...)` call. -/
structure CallArgs where
  model : String
  messages : List Msg
  temperature : ℚ
  maxTokens : ℕ
deriving DecidableEq, Repr

/-- Model of the external completion service: each call either yields the
extracted reply text `response.choices[0].message.content`, or raises an
exception whose `str(e)` is the carried diagnostic string. -/
def Oracle := CallArgs → Except String String

/-- The JSON body returned by the handler together with the HTTP status
code.  `model` is present only on success, `error` only on a 500. -/
structure ChatResp where
  response : String
  status : String
  model : Option String
  error : Option String
  code : ℕ
deriving DecidableEq, Repr

/-- `TUTOR_PROMPTS` from `app.py`: the persona registry. -/
def TUTOR_PROMPTS : List (String × String) :=
  [("physics",
    "You are Mr. Newton, an expert Physics tutor. Provide detailed, step-by-step explanations to help students understand physics concepts. Focus on classical mechanics, thermodynamics, and problem-solving strategies. Break down complex problems into manageable parts using clear language and real-world examples."),
   ("chemistry",
    "You are Madam Curie, a Chemistry professor. Specialize in organic chemistry and chemical reactions. Provide clear explanations with laboratory applications. Help students understand balancing equations and reaction mechanisms with practical examples and step-by-step guidance."),
   ("biology",
    "You are Dr. Darwin, a Biology expert. Focus on evolution, genetics, and ecology. Explain complex biological systems with clear analogies. Specialize in cellular biology and human anatomy, providing detailed explanations with visual descriptions when helpful."),
   ("math",
    "You are Prof. Euler, a Mathematics tutor. Specialize in algebra, calculus, and geometry. Break down problems into understandable steps with clear explanations. Help students develop problem-solving skills in trigonometry, statistics, and advanced mathematical concepts.")]

/-- `MODELS` from `app.py`: the fallback model list, in order of preference. -/
def MODELS : List String :=
  ["anthropic/claude-3-haiku",
   "anthropic/claude-3-sonnet",
   "openai/gpt-3.5-turbo",
   "google/gemini-pro"]

/-- The module-level state the handler can see: the two global tables. -/
structure Globals where
  tutorPrompts : List (String × String)
  models : List String
deriving DecidableEq, Repr

/-- The globals as initialized at process start. -/
def initGlobals : Globals := ⟨TUTOR_PROMPTS, MODELS⟩

/-- Python truthiness of an optional string: `not x` holds exactly for an
absent value (`None`) and for the empty string. -/
def truthy : Option String → Bool
  | none => false
  | some s => s != ""

/-- The 400 response for `not tutor or tutor not in TUTOR_PROMPTS`. -/
def invalidTutorResp : ChatResp :=
  ⟨"Invalid tutor selected", "error", none, none, 400⟩

/-- The 400 response for `not message`. -/
def emptyMessageResp : ChatResp :=
  ⟨"Message cannot be empty", "error", none, none, 400⟩

/-- The fixed user-facing apology text of the 500 response. -/
def apologyText : String :=
  "Sorry, I\x27m having trouble connecting to the tutor service. Please try again later."

/-- The 500 response built in the outer `except` block: fixed apology text
plus the raw diagnostic `str(e)`. -/
def serviceErrorResp (diag : String) : ChatResp :=
  ⟨apologyText, "error", none, some diag, 500⟩

/-- The 200 response returned on the first successful model call. -/
def successResp (reply model : String) : ChatResp :=
  ⟨reply, "success", some model, none, 200⟩

/-- `{"role": h["role"], "content": h["content"]}` for one history entry:
a missing key raises `KeyError`, whose `str` is the quoted key name
(`role` is read first). -/
def toMsg (h : HistEntry) : Except String Msg :=
  match h.role with
  | none => .error "\x27role\x27"
  | some r =>
    match h.content with
    | none => .error "\x27content\x27"
    | some c => .ok ⟨r, c⟩

/-- The `for h in history` loop appending mapped entries; the first
malformed entry aborts the whole assembly with its `KeyError`. -/
def buildHistory : List HistEntry → Except String (List Msg)
  | [] => .ok []
  | h :: t =>
    match toMsg h with
    | .error e => .error e
    | .ok m =>
      match buildHistory t with
      | .error e => .error e
      | .ok ms => .ok (m :: ms)

/-- Message assembly (lines 78-81 of `app.py`): system prompt first, then
the mapped history, then the user message last. -/
def buildMessages (prompt : String) (history : List HistEntry) (message : String) :
    Except String (List Msg) :=
  match buildHistory history with
  | .error e => .error e
  | .ok hs => .ok (⟨"system", prompt⟩ :: (hs ++ [⟨"user", message⟩]))

/-- The argument record of the `create` call at lines 87-92: fixed
temperature `0.7` and fixed `max_tokens = 1000`. -/
def mkCall (messages : List Msg) (model : String) : CallArgs :=
  ⟨model, messages, 7/10, 1000⟩

/-- The fallback loop (lines 84-105): try each model in order, return on
the first success, remember the diagnostic of the most recent failure.
The result pairs the trace of issued calls with either `(reply, model)` on
success or, on exhaustion, the `last_error` carried out of the loop. -/
def tryModels (oracle : Oracle) (messages : List Msg) :
    List String → Option String → List CallArgs × Except (Option String) (String × String)
  | [], lastError => ([], .error lastError)
  | model :: rest, _lastError =>
    match oracle (mkCall messages model) with
    | .ok reply => ([mkCall messages model], .ok (reply, model))
    | .error e =>
      let r := tryModels oracle messages rest (some e)
      (mkCall messages model :: r.1, r.2)

/-- The `chat` handler (lines 57-113 of `app.py`), with the module state
`g` passed in and returned (the handler only reads it), the external
service abstracted by `oracle`, and the trace of external calls recorded.
On exhaustion with no recorded failure the code raises
`Exception("All models failed")`, which the outer handler stringifies. -/
def chatApp (g : Globals) (oracle : Oracle) (req : ChatRequest) :
    Globals × List CallArgs × ChatResp :=
  match g.tutorPrompts.lookup (req.tutor.getD "") with
  | none => (g, [], invalidTutorResp)
  | some prompt =>
    if !truthy req.tutor then (g, [], invalidTutorResp)
    else if !truthy req.message then (g, [], emptyMessageResp)
    else
      match buildMessages prompt req.history (req.message.getD "") with
      | .error d => (g, [], serviceErrorResp d)
      | .ok msgs =>
        match tryModels oracle msgs g.models none with
        | (tr, .ok (reply, model)) => (g, tr, successResp reply model)
        | (tr, .error (some e)) => (g, tr, serviceErrorResp e)
        | (tr, .error none) => (g, tr, serviceErrorResp "All models failed")

/-- The handler as deployed: run against the process-start globals,
yielding the external-call trace and the HTTP response. -/
def chat (oracle : Oracle) (req : ChatRequest) : List CallArgs × ChatResp :=
  (chatApp initGlobals oracle req).2

/-- A well-formed history given by explicit (role, content) pairs. -/
def histOf (rcs : List (String × String)) : List HistEntry :=
  rcs.map fun rc => ⟨some rc.1, some rc.2⟩

/-- The assembled message sequence for prompt `p`, well-formed history
`rcs` and user message `m`. -/
def msgList (p : String) (rcs : List (String × String)) (m : String) : List Msg :=
  ⟨"system", p⟩ :: ((rcs.map fun rc => ⟨rc.1, rc.2⟩) ++ [⟨"user", m⟩])

lemma buildHistory_map (rcs : List (String × String)) :
    buildHistory (histOf rcs) = .ok (rcs.map fun rc => ⟨rc.1, rc.2⟩) := by
  induction rcs with
  | nil => rfl
  | cons h t ih => simp [histOf, buildHistory, toMsg, ih] at ih ⊢

lemma buildMessages_map (p m : String) (rcs : List (String × String)) :
    buildMessages p (histOf rcs) m = .ok (msgList p rcs m) := by
  simp [buildMessages, buildHistory_map, msgList]

lemma lookup_empty : TUTOR_PROMPTS.lookup "" = none := rfl

/-- Unfolding of the handler once validation has passed: the outcome is
that of message assembly followed by the fallback loop. -/
lemma chat_valid_step (oracle : Oracle) (t p m : String) (hs : List HistEntry)
    (ht : TUTOR_PROMPTS.lookup t = some p) (hm : m ≠ "") :
    chat oracle ⟨some t, some m, hs⟩ =
      (match buildMessages p hs m with
       | .error d => ([], serviceErrorResp d)
       | .ok msgs =>
         ((tryModels oracle msgs MODELS none).1,
          match (tryModels oracle msgs MODELS none).2 with
          | .ok (reply, model) => successResp reply model
          | .error (some e) => serviceErrorResp e
          | .error none => serviceErrorResp "All models failed")) := by
  have ht' : t ≠ "" := by
    intro h
    rw [h, lookup_empty] at ht
    exact Option.noConfusion ht
  unfold chat chatApp initGlobals
  have htt : truthy (some t) = true := by simp [truthy, ht']
  have hmt : truthy (some m) = true := by simp [truthy, hm]
  simp only [Option.getD_some, ht, htt, hmt, Bool.not_true, Bool.false_eq_true, if_false]
  rcases hbm : buildMessages p hs m with d | msgs
  · rfl
  · dsimp only
    rcases hres : tryModels oracle msgs MODELS none with ⟨tr, res⟩
    rcases res with e | v
    · rcases e with _ | e <;> rfl
    · obtain ⟨reply, model⟩ := v
      rfl

/-- Unfolding of the handler on a valid request with a well-formed
history: validation and assembly pass, the outcome is the loop's. -/
lemma chat_valid_eq (oracle : Oracle) (t p m : String) (rcs : List (String × String))
    (ht : TUTOR_PROMPTS.lookup t = some p) (hm : m ≠ "") :
    chat oracle ⟨some t, some m, histOf rcs⟩ =
      ((tryModels oracle (msgList p rcs m) MODELS none).1,
       match (tryModels oracle (msgList p rcs m) MODELS none).2 with
       | .ok (reply, model) => successResp reply model
       | .error (some e) => serviceErrorResp e
       | .error none => serviceErrorResp "All models failed") := by
  rw [chat_valid_step oracle t p m (histOf rcs) ht hm, buildMessages_map]

lemma tryModels_nil (oracle : Oracle) (msgs : List Msg) (le : Option String) :
    tryModels oracle msgs [] le = ([], .error le) := rfl

lemma tryModels_cons_ok (oracle : Oracle) (msgs : List Msg) (mdl : String)
    (rest : List String) (le : Option String) (reply : String)
    (h : oracle (mkCall msgs mdl) = .ok reply) :
    tryModels oracle msgs (mdl :: rest) le = ([mkCall msgs mdl], .ok (reply, mdl)) := by
  rw [tryModels.eq_def]
  dsimp only
  rw [h]

lemma tryModels_cons_error (oracle : Oracle) (msgs : List Msg) (mdl : String)
    (rest : List String) (le : Option String) (e : String)
    (h : oracle (mkCall msgs mdl) = .error e) :
    tryModels oracle msgs (mdl :: rest) le =
      (mkCall msgs mdl :: (tryModels oracle msgs rest (some e)).1,
       (tryModels oracle msgs rest (some e)).2) := by
  rw [tryModels.eq_def]
  dsimp only
  rw [h]

/-- If the first `n` models fail and model `n` succeeds, the loop calls
exactly the first `n+1` models and returns that reply and identifier. -/
lemma tryModels_firstSuccess (oracle : Oracle) (msgs : List Msg) (reply : String) :
    ∀ (ms : List String) (n : ℕ) (ef : ℕ → String) (le : Option String),
    n < ms.length →
    (∀ i, i < n → oracle (mkCall msgs (ms.getD i "")) = .error (ef i)) →
    oracle (mkCall msgs (ms.getD n "")) = .ok reply →
    tryModels oracle msgs ms le =
      ((ms.take (n+1)).map (mkCall msgs), .ok (reply, ms.getD n "")) := by
  intro ms
  induction ms with
  | nil => intro n ef le hn; exact absurd hn (by simp)
  | cons mdl rest ih =>
    intro n ef le hn hfail hsucc
    cases n with
    | zero =>
      simp only [List.getD_cons_zero] at hsucc
      simp [tryModels, hsucc]
    | succ k =>
      have h0 : oracle (mkCall msgs mdl) = .error (ef 0) := by
        have := hfail 0 (Nat.succ_pos k)
        simpa using this
      have hrec := ih k (fun i => ef (i+1)) (some (ef 0))
        (Nat.lt_of_succ_lt_succ hn)
        (fun i hi => by
          have := hfail (i+1) (Nat.succ_lt_succ hi)
          simpa using this)
        (by simpa using hsucc)
      simp [tryModels, h0, hrec]

/-- If every model fails, the loop calls every model and carries out the
diagnostic of the last one. -/
lemma tryModels_allFail (oracle : Oracle) (msgs : List Msg) :
    ∀ (ms : List String) (ef : ℕ → String) (le : Option String),
    (∀ i, i < ms.length → oracle (mkCall msgs (ms.getD i "")) = .error (ef i)) →
    tryModels oracle msgs ms le =
      (ms.map (mkCall msgs),
       .error (match ms with | [] => le | _ :: rest => some (ef rest.length))) := by
  intro ms
  induction ms with
  | nil => intro ef le _; rfl
  | cons mdl rest ih =>
    intro ef le hfail
    have h0 : oracle (mkCall msgs mdl) = .error (ef 0) := by
      have := hfail 0 (Nat.succ_pos rest.length)
      simpa using this
    have hrec := ih (fun i => ef (i+1)) (some (ef 0))
      (fun i hi => by
        have := hfail (i+1) (Nat.succ_lt_succ hi)
        simpa using this)
    rw [tryModels_cons_error oracle msgs mdl rest le (ef 0) h0, hrec]
    cases rest with
    | nil => rfl
    | cons m2 rest2 => rfl

/-- Every call the loop issues uses the given message list, temperature
7/10 and max length 1000, against one of the listed models. -/
lemma tryModels_trace (oracle : Oracle) (msgs : List Msg) :
    ∀ (ms : List String) (le : Option String) (c : CallArgs),
    c ∈ (tryModels oracle msgs ms le).1 → ∃ mdl ∈ ms, c = mkCall msgs mdl := by
  intro ms
  induction ms with
  | nil => intro le c hc; simp [tryModels] at hc
  | cons mdl rest ih =>
    intro le c hc
    rcases h0 : oracle (mkCall msgs mdl) with e | reply
    · simp only [tryModels, h0] at hc
      rcases List.mem_cons.mp hc with rfl | hmem
      · exact ⟨mdl, List.mem_cons_self mdl rest, rfl⟩
      · obtain ⟨m2, hm2, rfl⟩ := ih (some e) c hmem
        exact ⟨m2, List.mem_cons_of_mem mdl hm2, rfl⟩
    · simp only [tryModels, h0, List.mem_singleton] at hc
      exact ⟨mdl, List.mem_cons_self mdl rest, hc⟩

/-- On a non-empty model list the loop issues at least one call. -/
lemma tryModels_trace_ne_nil (oracle : Oracle) (msgs : List Msg)
    (mdl : String) (rest : List String) (le : Option String) :
    (tryModels oracle msgs (mdl :: rest) le).1 ≠ [] := by
  rcases h0 : oracle (mkCall msgs mdl) with e | reply
  · rw [tryModels_cons_error oracle msgs mdl rest le e h0]
    simp
  · rw [tryModels_cons_ok oracle msgs mdl rest le reply h0]
    simp

/-- The module-level globals come out of the handler exactly as they went
in: no branch writes to them. -/
lemma chatApp_fst (g : Globals) (oracle : Oracle) (req : ChatRequest) :
    (chatApp g oracle req).1 = g := by
  unfold chatApp
  split
  · rfl
  · split
    · rfl
    · split
      · rfl
      · split
        · rfl
        · split <;> rfl

/-- Every response the handler can produce is one of the four shapes
built in the source. -/
lemma chatApp_resp_cases (g : Globals) (oracle : Oracle) (req : ChatRequest) :
    (chatApp g oracle req).2.2 = invalidTutorResp ∨
    (chatApp g oracle req).2.2 = emptyMessageResp ∨
    (∃ d, (chatApp g oracle req).2.2 = serviceErrorResp d) ∨
    (∃ reply mdl, (chatApp g oracle req).2.2 = successResp reply mdl) := by
  unfold chatApp
  split
  · exact Or.inl rfl
  · split
    · exact Or.inl rfl
    · split
      · exact Or.inr (Or.inl rfl)
      · split
        · exact Or.inr (Or.inr (Or.inl ⟨_, rfl⟩))
        · split
          · exact Or.inr (Or.inr (Or.inr ⟨_, _, rfl⟩))
          · exact Or.inr (Or.inr (Or.inl ⟨_, rfl⟩))
          · exact Or.inr (Or.inr (Or.inl ⟨_, rfl⟩))

/-- A history containing an entry without a role or content key makes the
assembly loop raise a `KeyError`. -/
lemma buildHistory_bad : ∀ (hs : List HistEntry),
    (∃ h ∈ hs, h.role = none ∨ h.content = none) →
    ∃ d, buildHistory hs = .error d := by
  intro hs
  induction hs with
  | nil =>
    rintro ⟨h, hmem, _⟩
    simp at hmem
  | cons h t ih =>
    rintro ⟨h2, hmem, hbad⟩
    rcases List.mem_cons.mp hmem with rfl | hmem2
    · rcases hbad with hr | hc
      · exact ⟨"\x27role\x27", by simp [buildHistory, toMsg, hr]⟩
      · rcases hro : h2.role with _ | r
        · exact ⟨"\x27role\x27", by simp [buildHistory, toMsg, hro]⟩
        · exact ⟨"\x27content\x27", by simp [buildHistory, toMsg, hro, hc]⟩
    · rcases htm : toMsg h with e | mg
      · exact ⟨e, by simp [buildHistory, htm]⟩
      · obtain ⟨d, hd⟩ := ih ⟨h2, hmem2, hbad⟩
        exact ⟨d, by simp [buildHistory, htm, hd]⟩

/-- C1: for every valid request (known tutor, non-empty message, well-formed
history), the fallback loop tries `MODELS` in declared order and stops at
the first model whose call succeeds: if the first `n` candidates fail and
candidate `n` (0-based) succeeds, exactly the first `n+1` models are
called, and the handler returns status success with that call's reply text
and that model's identifier. -/
theorem C1_first_success_wins (oracle : Oracle) (t p m reply : String)
    (rcs : List (String × String)) (n : ℕ) (ef : ℕ → String)
    (ht : TUTOR_PROMPTS.lookup t = some p) (hm : m ≠ "")
    (hn : n < MODELS.length)
    (hfail : ∀ i, i < n →
      oracle (mkCall (msgList p rcs m) (MODELS.getD i "")) = .error (ef i))
    (hsucc : oracle (mkCall (msgList p rcs m) (MODELS.getD n "")) = .ok reply) :
    chat oracle ⟨some t, some m, histOf rcs⟩ =
      ((MODELS.take (n+1)).map (mkCall (msgList p rcs m)),
       successResp reply (MODELS.getD n "")) := by
  rw [chat_valid_eq oracle t p m rcs ht hm,
    tryModels_firstSuccess oracle (msgList p rcs m) reply MODELS n ef none hn hfail hsucc]

/-- A service where the first model is down and every later model answers. -/
def oracleW1 : Oracle := fun a =>
  if a.model = "anthropic/claude-3-haiku" then .error "rate limited"
  else .ok "Inertia is the resistance of a body to changes in its motion."

/-- The physics persona prompt, as looked up in the registry. -/
def physicsPrompt : String := (TUTOR_PROMPTS.lookup "physics").getD ""

theorem C1_first_success_wins_witness :
    (1 : ℕ) < MODELS.length ∧
    chat oracleW1 ⟨some "physics", some "What is inertia?", histOf []⟩ =
      ((MODELS.take 2).map (mkCall (msgList physicsPrompt [] "What is inertia?")),
       successResp "Inertia is the resistance of a body to changes in its motion."
         (MODELS.getD 1 "")) :=
  ⟨by decide,
   C1_first_success_wins oracleW1 "physics" physicsPrompt "What is inertia?"
     "Inertia is the resistance of a body to changes in its motion." [] 1
     (fun _ => "rate limited") rfl (by decide) (by decide)
     (by intro i hi; interval_cases i; rfl) rfl⟩

/-- C2: for every valid request, every message sequence sent to the
completion service is exactly the system prompt of the selected persona,
then the history entries mapped verbatim in order, then the user's new
message: its first element is the persona prompt, its last element is the
user message, and between them stands the history unchanged. -/
theorem C2_message_sequence (oracle : Oracle) (t p m : String)
    (rcs : List (String × String))
    (ht : TUTOR_PROMPTS.lookup t = some p) (hm : m ≠ "") :
    (∀ c ∈ (chat oracle ⟨some t, some m, histOf rcs⟩).1,
        c.messages = msgList p rcs m) ∧
    (msgList p rcs m).head? = some ⟨"system", p⟩ ∧
    (msgList p rcs m).getLast? = some ⟨"user", m⟩ ∧
    ((msgList p rcs m).drop 1).dropLast = rcs.map (fun rc => ⟨rc.1, rc.2⟩) := by
  refine ⟨?_, rfl, ?_, ?_⟩
  · intro c hc
    rw [chat_valid_eq oracle t p m rcs ht hm] at hc
    obtain ⟨mdl, _, rfl⟩ := tryModels_trace oracle (msgList p rcs m) MODELS none c hc
    rfl
  · rw [msgList, ← List.cons_append, List.getLast?_concat]
  · simp [msgList]

theorem C2_message_sequence_witness :
    (mkCall
        (msgList physicsPrompt [("user", "hello"), ("assistant", "hi, how can I help?")]
          "What is inertia?") "anthropic/claude-3-sonnet").messages =
      msgList physicsPrompt [("user", "hello"), ("assistant", "hi, how can I help?")]
        "What is inertia?" ∧
    (msgList physicsPrompt [("user", "hello"), ("assistant", "hi, how can I help?")]
        "What is inertia?").head? = some ⟨"system", physicsPrompt⟩ ∧
    (msgList physicsPrompt [("user", "hello"), ("assistant", "hi, how can I help?")]
        "What is inertia?").getLast? = some ⟨"user", "What is inertia?"⟩ ∧
    ((msgList physicsPrompt [("user", "hello"), ("assistant", "hi, how can I help?")]
        "What is inertia?").drop 1).dropLast =
      [⟨"user", "hello"⟩, ⟨"assistant", "hi, how can I help?"⟩] :=
  have H := C2_message_sequence oracleW1 "physics" physicsPrompt "What is inertia?"
    [("user", "hello"), ("assistant", "hi, how can I help?")] rfl (by decide)
  ⟨H.1 _ (by
      rw [show (chat oracleW1 ⟨some "physics", some "What is inertia?",
            histOf [("user", "hello"), ("assistant", "hi, how can I help?")]⟩).1 =
          [mkCall (msgList physicsPrompt [("user", "hello"), ("assistant", "hi, how can I help?")]
              "What is inertia?") "anthropic/claude-3-haiku",
           mkCall (msgList physicsPrompt [("user", "hello"), ("assistant", "hi, how can I help?")]
              "What is inertia?") "anthropic/claude-3-sonnet"] from rfl]
      exact List.mem_cons_of_mem _ (List.mem_singleton.mpr rfl)),
   H.2.1, H.2.2.1, H.2.2.2⟩

/-- C3: validation runs before any external call, tutor check first, first
failure wins: a missing, empty or unknown tutor yields the InvalidTutor
400 response with zero external calls, whatever the message is; a valid
tutor with a missing or empty message yields the EmptyMessage 400 response
with zero external calls. -/
theorem C3_validation_before_calls (oracle : Oracle) (req : ChatRequest) :
    ((∀ t, req.tutor = some t → t = "" ∨ TUTOR_PROMPTS.lookup t = none) →
       chat oracle req = ([], invalidTutorResp)) ∧
    (∀ t p, req.tutor = some t → TUTOR_PROMPTS.lookup t = some p →
       req.message = none ∨ req.message = some "" →
       chat oracle req = ([], emptyMessageResp)) := by
  constructor
  · intro hbad
    unfold chat chatApp initGlobals
    rcases hto : req.tutor with _ | t
    · simp only [Option.getD_none, lookup_empty]
    · rcases hbad t hto with rfl | hnone
      · simp only [Option.getD_some, lookup_empty]
      · simp only [Option.getD_some, hnone]
  · intro t p hto hl hmsg
    have ht' : t ≠ "" := by
      intro h
      rw [h, lookup_empty] at hl
      exact Option.noConfusion hl
    unfold chat chatApp initGlobals
    have htt : truthy (some t) = true := by simp [truthy, ht']
    have hmf : truthy req.message = false := by
      rcases hmsg with h | h <;> simp [h, truthy]
    simp only [hto, Option.getD_some, hl, htt, hmf, Bool.not_true, Bool.not_false,
      Bool.false_eq_true, if_false, if_true]

theorem C3_validation_before_calls_witness :
    chat oracleW1 ⟨some "art", some "hello", []⟩ = ([], invalidTutorResp) ∧
    chat oracleW1 ⟨some "physics", some "", []⟩ = ([], emptyMessageResp) :=
  ⟨(C3_validation_before_calls oracleW1 ⟨some "art", some "hello", []⟩).1
     (by intro t h; cases h; right; rfl),
   (C3_validation_before_calls oracleW1 ⟨some "physics", some "", []⟩).2
     "physics" physicsPrompt rfl rfl (Or.inr rfl)⟩

/-- C4: if every model in the candidate list fails, the handler returns
the 500 response with status error, the fixed apology text, and an error
field carrying exactly the most recent (last attempted) model's
diagnostic; the earlier diagnostics are discarded. -/
theorem C4_exhaustion_reports_last (oracle : Oracle) (t p m : String)
    (rcs : List (String × String)) (ef : ℕ → String)
    (ht : TUTOR_PROMPTS.lookup t = some p) (hm : m ≠ "")
    (hfail : ∀ i, i < MODELS.length →
      oracle (mkCall (msgList p rcs m) (MODELS.getD i "")) = .error (ef i)) :
    chat oracle ⟨some t, some m, histOf rcs⟩ =
      (MODELS.map (mkCall (msgList p rcs m)),
       serviceErrorResp (ef (MODELS.length - 1))) := by
  rw [chat_valid_eq oracle t p m rcs ht hm,
    tryModels_allFail oracle (msgList p rcs m) MODELS ef none hfail]
  rfl

/-- A service where every model fails, each with its own diagnostic. -/
def oracleW4 : Oracle := fun a => .error ("down: " ++ a.model)

theorem C4_exhaustion_reports_last_witness :
    chat oracleW4 ⟨some "math", some "2+2?", histOf []⟩ =
      (MODELS.map (mkCall (msgList ((TUTOR_PROMPTS.lookup "math").getD "") [] "2+2?")),
       serviceErrorResp ("down: " ++ "google/gemini-pro")) :=
  C4_exhaustion_reports_last oracleW4 "math" ((TUTOR_PROMPTS.lookup "math").getD "")
    "2+2?" [] (fun i => "down: " ++ MODELS.getD i "") rfl (by decide)
    (by
      intro i hi
      have hi4 : i < 4 := hi
      clear hi
      interval_cases i <;> rfl)

/-- C5: whenever the overall outcome has status error, the response text
is one of the three fixed strings; in particular it is never model output,
even if some call produced a reply before the operation failed. -/
theorem C5_error_text_is_fixed (oracle : Oracle) (req : ChatRequest)
    (h : (chat oracle req).2.status = "error") :
    (chat oracle req).2.response = "Invalid tutor selected" ∨
    (chat oracle req).2.response = "Message cannot be empty" ∨
    (chat oracle req).2.response = apologyText := by
  have hco : (chat oracle req).2 = (chatApp initGlobals oracle req).2.2 := rfl
  rw [hco] at h ⊢
  rcases chatApp_resp_cases initGlobals oracle req with h1 | h1 | ⟨d, h1⟩ | ⟨r, mdl, h1⟩
  · rw [h1]
    exact Or.inl rfl
  · rw [h1]
    exact Or.inr (Or.inl rfl)
  · rw [h1]
    exact Or.inr (Or.inr rfl)
  · rw [h1] at h
    simp [successResp] at h

theorem C5_error_text_is_fixed_witness :
    (chat oracleW4 ⟨some "physics", some "hi", []⟩).2.status = "error" ∧
    ((chat oracleW4 ⟨some "physics", some "hi", []⟩).2.response = "Invalid tutor selected" ∨
     (chat oracleW4 ⟨some "physics", some "hi", []⟩).2.response = "Message cannot be empty" ∨
     (chat oracleW4 ⟨some "physics", some "hi", []⟩).2.response = apologyText) :=
  ⟨rfl, C5_error_text_is_fixed oracleW4 ⟨some "physics", some "hi", []⟩ rfl⟩

/-- A service failing every model with an exception whose message text is
empty, so that `str(e)` is the empty string. -/
def oracleC6 : Oracle := fun _ => .error ""

/-- C6 counterexample: the claim says the error field is a non-empty
diagnostic for every possible per-model exception; but with exceptions
whose message text is empty, all four models are attempted, status is
error, and the error field is the empty string. -/
theorem C6_counterexample :
    (chat oracleC6 ⟨some "physics", some "hi", []⟩).1.length = MODELS.length ∧
    (chat oracleC6 ⟨some "physics", some "hi", []⟩).2.status = "error" ∧
    (chat oracleC6 ⟨some "physics", some "hi", []⟩).2.error = some "" :=
  ⟨rfl, rfl, rfl⟩

/-- C6 (amended): whenever all candidate models fail, the error field of
the response equals the diagnostic of the last attempted model's failure;
it is non-empty whenever that exception's message text is non-empty (and
empty when the message text is empty, as the counterexample shows). -/
theorem C6_error_is_last_diagnostic (oracle : Oracle) (t p m : String)
    (rcs : List (String × String)) (ef : ℕ → String)
    (ht : TUTOR_PROMPTS.lookup t = some p) (hm : m ≠ "")
    (hfail : ∀ i, i < MODELS.length →
      oracle (mkCall (msgList p rcs m) (MODELS.getD i "")) = .error (ef i)) :
    (chat oracle ⟨some t, some m, histOf rcs⟩).2.error = some (ef (MODELS.length - 1)) ∧
    (ef (MODELS.length - 1) ≠ "" →
      (chat oracle ⟨some t, some m, histOf rcs⟩).2.error ≠ some "") := by
  have hmain : chat oracle ⟨some t, some m, histOf rcs⟩ =
      (MODELS.map (mkCall (msgList p rcs m)),
       serviceErrorResp (ef (MODELS.length - 1))) := by
    rw [chat_valid_eq oracle t p m rcs ht hm,
      tryModels_allFail oracle (msgList p rcs m) MODELS ef none hfail]
    rfl
  rw [hmain]
  refine ⟨rfl, fun hne hc => hne ?_⟩
  exact (Option.some.inj hc)

theorem C6_error_is_last_diagnostic_witness :
    (chat oracleW4 ⟨some "physics", some "hi", []⟩).2.error =
      some ("down: " ++ "google/gemini-pro") ∧
    (chat oracleW4 ⟨some "physics", some "hi", []⟩).2.error ≠ some "" :=
  have H := C6_error_is_last_diagnostic oracleW4 "physics" physicsPrompt "hi" []
    (fun i => "down: " ++ MODELS.getD i "") rfl (by decide)
    (by
      intro i hi
      have hi4 : i < 4 := hi
      clear hi
      interval_cases i <;> rfl)
  ⟨H.1, H.2 (by decide)⟩

/-- C7: every external completion call issued by the handler uses the
assembled message sequence unchanged, a sampling temperature of exactly
0.7, and a maximum output length of exactly 1000 tokens. -/
theorem C7_fixed_call_parameters (oracle : Oracle) (t p m : String)
    (rcs : List (String × String))
    (ht : TUTOR_PROMPTS.lookup t = some p) (hm : m ≠ "") :
    ∀ c ∈ (chat oracle ⟨some t, some m, histOf rcs⟩).1,
      c.messages = msgList p rcs m ∧ c.temperature = 7/10 ∧ c.maxTokens = 1000 := by
  intro c hc
  rw [chat_valid_eq oracle t p m rcs ht hm] at hc
  obtain ⟨mdl, _, rfl⟩ := tryModels_trace oracle (msgList p rcs m) MODELS none c hc
  exact ⟨rfl, rfl, rfl⟩

theorem C7_fixed_call_parameters_witness :
    (mkCall (msgList physicsPrompt [] "hi") "anthropic/claude-3-haiku").messages =
      msgList physicsPrompt [] "hi" ∧
    (mkCall (msgList physicsPrompt [] "hi") "anthropic/claude-3-haiku").temperature = 7/10 ∧
    (mkCall (msgList physicsPrompt [] "hi") "anthropic/claude-3-haiku").maxTokens = 1000 :=
  C7_fixed_call_parameters oracleW4 "physics" physicsPrompt "hi" [] rfl (by decide)
    (mkCall (msgList physicsPrompt [] "hi") "anthropic/claude-3-haiku")
    (by
      rw [show (chat oracleW4 ⟨some "physics", some "hi", histOf []⟩).1 =
          [mkCall (msgList physicsPrompt [] "hi") "anthropic/claude-3-haiku",
           mkCall (msgList physicsPrompt [] "hi") "anthropic/claude-3-sonnet",
           mkCall (msgList physicsPrompt [] "hi") "openai/gpt-3.5-turbo",
           mkCall (msgList physicsPrompt [] "hi") "google/gemini-pro"] from rfl]
      exact List.mem_cons_self _ _)

/-- C8: the persona prompt table and the model candidate list are
read-only for the handler: they come out of every invocation exactly as
they went in, and a later request handled after an earlier one sees the
same globals and produces the same result as if handled first, so
per-request state lives only in the handler's locals. -/
theorem C8_globals_unchanged (g : Globals) (oracle : Oracle) (req req2 : ChatRequest) :
    (chatApp g oracle req).1 = g ∧
    chatApp (chatApp g oracle req).1 oracle req2 = chatApp g oracle req2 := by
  refine ⟨chatApp_fst g oracle req, ?_⟩
  rw [chatApp_fst g oracle req]

/-- C9: the message check rejects only an absent or empty-string message:
any non-empty message (for example the whitespace-only `" "` of the
witness) passes validation and the handler proceeds to issue at least one
external call rather than returning the EmptyMessage response. -/
theorem C9_whitespace_message_passes (oracle : Oracle) (t p m : String)
    (rcs : List (String × String))
    (ht : TUTOR_PROMPTS.lookup t = some p) (hm : m ≠ "") :
    (chat oracle ⟨some t, some m, histOf rcs⟩).1 ≠ [] ∧
    (chat oracle ⟨some t, some m, histOf rcs⟩).2 ≠ emptyMessageResp := by
  rw [chat_valid_eq oracle t p m rcs ht hm]
  constructor
  · exact tryModels_trace_ne_nil oracle (msgList p rcs m) _ _ none
  · rcases hres : (tryModels oracle (msgList p rcs m) MODELS none).2 with e | v
    · rcases e with _ | e
      · intro hc
        have h1 := congrArg ChatResp.code hc
        simp [serviceErrorResp, emptyMessageResp] at h1
      · intro hc
        have h1 := congrArg ChatResp.code hc
        simp [serviceErrorResp, emptyMessageResp] at h1
    · obtain ⟨r, mdl⟩ := v
      intro hc
      have h1 := congrArg ChatResp.code hc
      simp [successResp, emptyMessageResp] at h1

theorem C9_whitespace_message_passes_witness :
    (" " : String) ≠ "" ∧
    (chat oracleW1 ⟨some "physics", some " ", histOf []⟩).1 ≠ [] ∧
    (chat oracleW1 ⟨some "physics", some " ", histOf []⟩).2 ≠ emptyMessageResp :=
  ⟨by decide,
   C9_whitespace_message_passes oracleW1 "physics" physicsPrompt " " [] rfl (by decide)⟩

/-- C10: an otherwise-valid request whose history contains an entry
missing the role or content key fails during message assembly: the
handler returns the generic 500 service-error response (status error, the
fixed apology text, plus a diagnostic) with zero external calls, rather
than a 400 validation error. -/
theorem C10_malformed_history_500 (oracle : Oracle) (t p m : String)
    (hs : List HistEntry)
    (ht : TUTOR_PROMPTS.lookup t = some p) (hm : m ≠ "")
    (hbad : ∃ h ∈ hs, h.role = none ∨ h.content = none) :
    (chat oracle ⟨some t, some m, hs⟩).1 = [] ∧
    (chat oracle ⟨some t, some m, hs⟩).2.code = 500 ∧
    (chat oracle ⟨some t, some m, hs⟩).2.status = "error" ∧
    (chat oracle ⟨some t, some m, hs⟩).2.response = apologyText ∧
    (chat oracle ⟨some t, some m, hs⟩).2.error.isSome = true := by
  obtain ⟨d, hd⟩ := buildHistory_bad hs hbad
  have hbm : buildMessages p hs m = .error d := by
    simp [buildMessages, hd]
  have hmain : chat oracle ⟨some t, some m, hs⟩ = ([], serviceErrorResp d) := by
    rw [chat_valid_step oracle t p m hs ht hm, hbm]
  rw [hmain]
  exact ⟨rfl, rfl, rfl, rfl, rfl⟩

theorem C10_malformed_history_500_witness :
    (chat oracleW1 ⟨some "physics", some "hello", [⟨none, some "weird"⟩]⟩).1 = [] ∧
    (chat oracleW1 ⟨some "physics", some "hello", [⟨none, some "weird"⟩]⟩).2.code = 500 ∧
    (chat oracleW1 ⟨some "physics", some "hello", [⟨none, some "weird"⟩]⟩).2.status = "error" ∧
    (chat oracleW1 ⟨some "physics", some "hello", [⟨none, some "weird"⟩]⟩).2.response =
      apologyText ∧
    (chat oracleW1 ⟨some "physics", some "hello", [⟨none, some "weird"⟩]⟩).2.error.isSome =
      true :=
  C10_malformed_history_500 oracleW1 "physics" physicsPrompt "hello" [⟨none, some "weird"⟩]
    rfl (by decide) ⟨⟨none, some "weird"⟩, List.mem_singleton.mpr rfl, Or.inl rfl⟩

end LearnzVerse
